import Mathlib

/-
Verification of the ROI/geometry reconciliation logic of
`PointGreyCameraControl.newParameters`
(src/storm_control/hal4000/camera/pointgreyCameraControl.py).

The embedding models the reconfiguration entry point as a function on an
explicit state: the controller's parameter store (`pars`, the Python
`self.parameters`), the incoming parameter snapshot (`snap`, the Python
`parameters` argument), the camera's property values (`cam`), the running
flag, the `camera_working` flag, and a trace of the externally visible
hardware events (stop, start, hardware property writes, and the
parameters-changed notification).

Store values are exact rationals, represented as numerator/denominator
pairs (`Val`) so that every operation the module performs (addition,
subtraction, the 1e-6 exposure conversion, order and equality comparisons)
is computable by the kernel; the denominators of all values built by the
operations are positive, for which the cross-multiplication comparisons
agree with the rational order.  The parameter store's `setv` is
range-checked and fallible, following the spec's description of the
external parameter-store collaborator; errors short-circuit the rest of
the reconfiguration, carrying the state reached at the failure point.
-/

namespace PointGrey

/-- An exact rational value: numerator and denominator, kept unreduced.
All values constructed by the embedding have a positive denominator. -/
structure Val where
  num : Int
  den : Int
deriving DecidableEq, Repr

/-- Addition of values: cross-multiplied, no normalization. -/
instance : Add Val := ⟨fun a b => ⟨a.num * b.den + b.num * a.den, a.den * b.den⟩⟩

/-- Subtraction of values. -/
instance : Sub Val := ⟨fun a b => ⟨a.num * b.den - b.num * a.den, a.den * b.den⟩⟩

/-- Multiplication of values. -/
instance : Mul Val := ⟨fun a b => ⟨a.num * b.num, a.den * b.den⟩⟩

/-- Numeric literals denote integral values. -/
instance (n : Nat) : OfNat Val n := ⟨⟨n, 1⟩⟩

/-- Order on values by cross multiplication (the rational order whenever
both denominators are positive). -/
instance : LE Val := ⟨fun a b => a.num * b.den ≤ b.num * a.den⟩

/-- Strict order on values by cross multiplication. -/
instance : LT Val := ⟨fun a b => a.num * b.den < b.num * a.den⟩

instance (a b : Val) : Decidable (a ≤ b) :=
  inferInstanceAs (Decidable (a.num * b.den ≤ b.num * a.den))

instance (a b : Val) : Decidable (a < b) :=
  inferInstanceAs (Decidable (a.num * b.den < b.num * a.den))

/-- Numeric equality of values (the Python `==` on numbers): equality of
the denoted rationals, by cross multiplication. -/
def Val.eqv (a b : Val) : Prop := a.num * b.den = b.num * a.den

instance (a b : Val) : Decidable (Val.eqv a b) :=
  inferInstanceAs (Decidable (a.num * b.den = b.num * a.den))

/-- Parameter / camera-property names occurring in
`PointGreyCameraControl.newParameters`. -/
inductive PName where
  | AcquisitionFrameRate
  | BlackLevel
  | Gain
  | Height
  | OffsetX
  | OffsetY
  | Width
  | ExposureTime
  | x_end
  | x_pixels
  | x_start
  | y_end
  | y_pixels
  | y_start
  | exposure_time
  | fps
deriving DecidableEq, Repr

/-- One entry of the parameter store: current value plus declared range
metadata (the spec's ParameterStore entry `{name, value, minimum, maximum}`). -/
structure Entry where
  value : Val
  minimum : Val
  maximum : Val
deriving DecidableEq, Repr

/-- The parameter store: a total map from names to entries. -/
abbrev Store := PName → Entry

/-- The camera's property values (the hardware side). -/
abbrev Camera := PName → Val

/-- Externally visible events of a reconfiguration: camera stop, camera
start, a hardware property write, and the parameters-changed notification. -/
inductive Evt where
  | stop
  | start
  | emit
  | hwSet (n : PName) (v : Val)
deriving DecidableEq, Repr

/-- Errors surfaced by the parameter store: a range-check failure on `setv`
of the given name. -/
inductive Err where
  | range (n : PName)
deriving DecidableEq, Repr

/-- The full reconfiguration state. -/
structure St where
  pars : Store
  snap : Store
  cam : Camera
  running : Bool
  camera_working : Bool
  trace : List Evt

/-- Result of a fallible step: an optional error together with the state
reached (on error, the state at the failure point). -/
structure Res where
  err : Option Err
  st : St

/-- A successful result. -/
def Res.ok (s : St) : Res := ⟨none, s⟩

/-- Sequencing of fallible steps: an error short-circuits. -/
def Res.andThen (r : Res) (f : St → Res) : Res :=
  match r.err with
  | some _ => r
  | none => f r.st

/-- Pointwise update of a store. -/
def setStore (s : Store) (n : PName) (e : Entry) : Store :=
  fun m => if m = n then e else s m

/-- Current value of a store entry (`parameters.get(name)`). -/
def getv (s : Store) (n : PName) : Val := (s n).value

/-- Pointwise update of the camera's property values. -/
def setCam (c : Camera) (n : PName) (v : Val) : Camera :=
  fun m => if m = n then v else c m

/-- Modelled from the spec: the external parameter store's `setv` is
range-checked against the entry's declared minimum/maximum; an
out-of-range write surfaces a RangeViolation to the caller.  Here: `setv`
on the incoming snapshot. -/
def snapSetv (n : PName) (v : Val) (s : St) : Res :=
  if (s.snap n).minimum ≤ v ∧ v ≤ (s.snap n).maximum then
    Res.ok { s with snap := setStore s.snap n { s.snap n with value := v } }
  else
    ⟨some (Err.range n), s⟩

/-- Modelled from the spec: range-checked `setv` on the controller's own
parameter store (`self.parameters.setv`). -/
def parsSetv (n : PName) (v : Val) (s : St) : Res :=
  if (s.pars n).minimum ≤ v ∧ v ≤ (s.pars n).maximum then
    Res.ok { s with pars := setStore s.pars n { s.pars n with value := v } }
  else
    ⟨some (Err.range n), s⟩

/-- `self.parameters.getp(name).setMaximum(v)`: update the declared maximum. -/
def parsSetMaximum (n : PName) (v : Val) (s : St) : St :=
  { s with pars := setStore s.pars n { s.pars n with maximum := v } }

/-- `self.parameters.getp(name).setMinimum(v)`: update the declared minimum. -/
def parsSetMinimum (n : PName) (v : Val) (s : St) : St :=
  { s with pars := setStore s.pars n { s.pars n with minimum := v } }

/-- `self.camera.setProperty(name, v)`: write a hardware property and record
the write in the trace. -/
def camSet (n : PName) (v : Val) (s : St) : St :=
  { s with cam := setCam s.cam n v, trace := s.trace ++ [Evt.hwSet n v] }

/-- Modelled from the spec: `HWCameraControl.stopCamera` stops streaming
(running flag cleared); recorded in the trace. -/
def stopCamera (s : St) : St :=
  { s with running := false, trace := s.trace ++ [Evt.stop] }

/-- Modelled from the spec: `HWCameraControl.startCamera` restarts streaming
(running flag set); recorded in the trace. -/
def startCamera (s : St) : St :=
  { s with running := true, trace := s.trace ++ [Evt.start] }

/-- `self.camera_functionality.parametersChanged.emit()`: the
parameters-changed notification. -/
def emitChanged (s : St) : St :=
  { s with trace := s.trace ++ [Evt.emit] }

/-- The Point Grey specific properties, in the iteration order of the
`self.pgrey_props` dictionary (its insertion order, lines 79-85). -/
def pgreyProps : List PName :=
  [PName.AcquisitionFrameRate, PName.BlackLevel, PName.Gain,
   PName.Height, PName.OffsetX, PName.OffsetY, PName.Width]

/-- The five names exempted from range republishing at initialization
(line 235). -/
def exemptFive : List PName :=
  [PName.AcquisitionFrameRate, PName.Height, PName.OffsetX, PName.OffsetY,
   PName.Width]

/-- Lines 172-179: translate the AOI information of the incoming snapshot
into the derived HAL parameters. -/
def translateAOI (s : St) : Res :=
  Res.andThen (snapSetv PName.x_end
      (getv s.snap PName.OffsetX + getv s.snap PName.Width - 1) s) fun s1 =>
  Res.andThen (snapSetv PName.x_pixels (getv s1.snap PName.Width) s1) fun s2 =>
  Res.andThen (snapSetv PName.x_start
      (getv s2.snap PName.OffsetX + 1) s2) fun s3 =>
  Res.andThen (snapSetv PName.y_end
      (getv s3.snap PName.OffsetY + getv s3.snap PName.Height - 1) s3) fun s4 =>
  Res.andThen (snapSetv PName.y_pixels (getv s4.snap PName.Height) s4) fun s5 =>
  snapSetv PName.y_start (getv s5.snap PName.OffsetY + 1) s5

/-- Modelled from the spec: the superclass `HWCameraControl.newParameters`
(outside the available sources) "performs some simple checks"; the spec
describes it as generic validation, so it is modelled as the identity on
the reconfiguration state. -/
def superNewParameters (s : St) : Res := Res.ok s

/-- Lines 188-192: the changed-properties list, in store iteration order.
A tracked name is included when the store value differs from the snapshot
value, or unconditionally at initialization. -/
def toChange (pars snap : Store) (initialization : Bool) : List PName :=
  pgreyProps.filter
    (fun n => decide (¬ Val.eqv (getv pars n) (getv snap n)) || initialization)

/-- Lines 203-219: the fiddly companion pre-write issued before writing a
geometry property whose requested value exceeds the store's current value. -/
def preWrite (s : St) (n : PName) : St :=
  if n = PName.Height then
    (if getv s.pars PName.Height < getv s.snap PName.Height then
      camSet PName.OffsetY (getv s.snap PName.OffsetY) s
    else s)
  else if n = PName.OffsetX then
    (if getv s.pars PName.OffsetX < getv s.snap PName.OffsetX then
      camSet PName.Width (getv s.snap PName.Width) s
    else s)
  else if n = PName.OffsetY then
    (if getv s.pars PName.OffsetY < getv s.snap PName.OffsetY then
      camSet PName.Height (getv s.snap PName.Height) s
    else s)
  else if n = PName.Width then
    (if getv s.pars PName.Width < getv s.snap PName.Width then
      camSet PName.OffsetX (getv s.snap PName.OffsetX) s
    else s)
  else s

/-- Lines 200-221: one iteration of the hardware-write loop: companion
pre-write (if any) followed by the property's own write. -/
def writeOne (s : St) (n : PName) : St :=
  camSet n (getv s.snap n) (preWrite s n)

/-- Lines 200-221: the hardware-write loop over the changed-properties list. -/
def writePhase (l : List PName) (s : St) : St := l.foldl writeOne s

/-- Lines 227-241: one iteration of the republish loop: skip the five
exempted names at initialization, otherwise push the freshly fetched
hardware maximum and minimum into the store's bounds and the snapshot's
value into the store. -/
def republishOne (hwMin hwMax : Camera → PName → Val) (initialization : Bool)
    (n : PName) (s : St) : Res :=
  if initialization = true ∧ n ∈ exemptFive then Res.ok s
  else
    parsSetv n (getv s.snap n)
      (parsSetMinimum n (hwMin s.cam n) (parsSetMaximum n (hwMax s.cam n) s))

/-- Fold a fallible per-name step over a list of names. -/
def foldSteps (f : PName → St → Res) : List PName → St → Res
  | [], s => Res.ok s
  | n :: t, s => Res.andThen (f n s) (foldSteps f t)

/-- Lines 227-241: the republish loop over all tracked properties. -/
def republishPhase (hwMin hwMax : Camera → PName → Val) (initialization : Bool)
    (s : St) : Res :=
  foldSteps (republishOne hwMin hwMax initialization) pgreyProps s

/-- Lines 243-247: set the hardware exposure time to its freshly re-fetched
maximum, then store the read-back exposure time (microseconds converted to
seconds) and the hardware frame rate into the store. -/
def exposurePhase (hwMax : Camera → PName → Val) (s : St) : Res :=
  Res.andThen (parsSetv PName.exposure_time
      ((⟨1, 1000000⟩ : Val) *
        (camSet PName.ExposureTime (hwMax s.cam PName.ExposureTime) s).cam
          PName.ExposureTime)
      (camSet PName.ExposureTime (hwMax s.cam PName.ExposureTime) s)) fun s2 =>
    parsSetv PName.fps (s2.cam PName.AcquisitionFrameRate) s2

/-- Lines 169-252: `PointGreyCameraControl.newParameters`.  The hardware's
dynamic property ranges are supplied as the functions `hwMin`, `hwMax` of
the camera's current values (the spec's RangeProvider, queried fresh at
every use). -/
def newParameters (hwMin hwMax : Camera → PName → Val) (initialization : Bool)
    (s : St) : Res :=
  Res.andThen (translateAOI s) fun s1 =>
  Res.andThen (superNewParameters s1) fun s2 =>
    let s3 : St := { s2 with camera_working := true }
    let tc := toChange s3.pars s3.snap initialization
    if tc = [] then Res.ok s3
    else
      let wasRunning := s3.running
      let s4 := if wasRunning then stopCamera s3 else s3
      let s5 := writePhase tc s4
      Res.andThen (republishPhase hwMin hwMax initialization s5) fun s6 =>
      Res.andThen (exposurePhase hwMax s6) fun s7 =>
        let s8 := if wasRunning then startCamera s7 else s7
        Res.ok (emitChanged s8)

/-- The state reached just before the republish loop (after AOI translation,
superclass validation, the optional stop, and the hardware-write loop), for
a run whose translation phase succeeds. -/
def preRepublishSt (initialization : Bool) (s : St) : St :=
  let s1 := (translateAOI s).st
  let s2 := (superNewParameters s1).st
  let s3 : St := { s2 with camera_working := true }
  let tc := toChange s3.pars s3.snap initialization
  let s4 := if s3.running then stopCamera s3 else s3
  writePhase tc s4

/-- The companion of each geometry property as stated by the spec: Height's
companion is OffsetY, OffsetX's is Width, OffsetY's is Height, Width's is
OffsetX. -/
def companion : PName → PName
  | PName.Height => PName.OffsetY
  | PName.OffsetX => PName.Width
  | PName.OffsetY => PName.Height
  | PName.Width => PName.OffsetX
  | n => n

/-- The four geometry properties. -/
def geomNames : List PName :=
  [PName.Height, PName.OffsetX, PName.OffsetY, PName.Width]

/-- Whether an event is a hardware write of a geometry property. -/
def isGeomSet : Evt → Bool
  | Evt.hwSet n _ => decide (n ∈ geomNames)
  | _ => false

/-- Replay of the hardware writes of a trace onto a camera state. -/
def applyEvt (c : Camera) : Evt → Camera
  | Evt.hwSet n v => setCam c n v
  | _ => c

/-- Replay of a whole trace's hardware writes. -/
def applyTrace (c : Camera) (t : List Evt) : Camera := t.foldl applyEvt c

/-- The six derived AOI parameters written by the translation phase. -/
def derivedSix : List PName :=
  [PName.x_end, PName.x_pixels, PName.x_start,
   PName.y_end, PName.y_pixels, PName.y_start]

/-- The camera state is the replay of the trace's hardware writes onto a
base camera state. -/
def TraceCam (c : Camera) (s : St) : Prop := s.cam = applyTrace c s.trace

/-- Store entry builder for the concrete scenarios. -/
def mkE (v lo hi : Val) : Entry := ⟨v, lo, hi⟩

/-- The spec's concrete scenario, store side: chip 2048 by 2048, current
geometry the full frame (OffsetX = 0, OffsetY = 0, Width = 2048,
Height = 2048), ranges as declared at construction. -/
def scnPars : Store := fun n =>
  match n with
  | PName.AcquisitionFrameRate => mkE 10 1 500
  | PName.BlackLevel => mkE 1 0 100
  | PName.Gain => mkE 10 0 100
  | PName.Height => mkE 2048 4 2048
  | PName.OffsetX => mkE 0 0 2044
  | PName.OffsetY => mkE 0 0 2044
  | PName.Width => mkE 2048 4 2048
  | PName.x_end => mkE 2048 1 2048
  | PName.x_pixels => mkE 2048 1 2048
  | PName.x_start => mkE 1 1 2048
  | PName.y_end => mkE 2048 1 2048
  | PName.y_pixels => mkE 2048 1 2048
  | PName.y_start => mkE 1 1 2048
  | PName.exposure_time => mkE ⟨1, 100⟩ 0 1000
  | PName.fps => mkE 10 0 1000
  | PName.ExposureTime => mkE 0 0 0

/-- The spec's concrete scenario, snapshot side: requested geometry
OffsetX = 100, OffsetY = 100, Width = 500, Height = 500, everything else as
in the store. -/
def scnSnap : Store := fun n =>
  match n with
  | PName.Height => mkE 500 4 2048
  | PName.OffsetX => mkE 100 0 2044
  | PName.OffsetY => mkE 100 0 2044
  | PName.Width => mkE 500 4 2048
  | m => scnPars m

/-- The spec's concrete scenario, hardware side: camera at the full frame. -/
def scnCam : Camera := fun n =>
  match n with
  | PName.Height => 2048
  | PName.Width => 2048
  | PName.AcquisitionFrameRate => 10
  | PName.BlackLevel => 1
  | PName.Gain => 10
  | _ => 0

/-- A range provider whose minima are all zero. -/
def hwMinZero : Camera → PName → Val := fun _ _ => 0

/-- A range provider whose maxima are all 4096. -/
def hwMaxBig : Camera → PName → Val := fun _ _ => 4096

/-- The spec's concrete scenario as an initial reconfiguration state (not
running, empty trace). -/
def scnSt : St := ⟨scnPars, scnSnap, scnCam, false, false, []⟩

/-- Snapshot for the BlackLevel scenario: Gain requested 20 (store has 10),
all other entries equal to the store's; in particular BlackLevel is 1 on
both sides. -/
def bkSnap : Store := fun n =>
  match n with
  | PName.Gain => mkE 20 0 100
  | m => scnPars m

/-- Camera for the BlackLevel scenario: hardware BlackLevel is 7, differing
from both the store's and the snapshot's value 1. -/
def bkCam : Camera := fun n =>
  match n with
  | PName.BlackLevel => 7
  | m => scnCam m

/-- The BlackLevel scenario as an initial state, with the device running. -/
def bkSt : St := ⟨scnPars, bkSnap, bkCam, true, false, []⟩

/-- A range provider reporting minimum 1000 for Gain: the republish setv of
Gain (requested 20) then violates the store's freshly set minimum. -/
def hwMinBad : Camera → PName → Val :=
  fun _ n => if n = PName.Gain then 1000 else 0

/-- A state whose snapshot is identical to its store (idempotent second
submission). -/
def idSt : St := ⟨scnPars, scnPars, scnCam, true, false, []⟩

theorem ok_andThen (s : St) (f : St → Res) : (Res.ok s).andThen f = f s := rfl

theorem ok_err (s : St) : (Res.ok s).err = none := rfl

theorem ok_st (s : St) : (Res.ok s).st = s := rfl

theorem andThen_none {r : Res} (f : St → Res) (h : r.err = none) :
    r.andThen f = f r.st := by
  unfold Res.andThen
  rw [h]

theorem andThen_some {r : Res} {e : Err} (f : St → Res) (h : r.err = some e) :
    r.andThen f = r := by
  unfold Res.andThen
  rw [h]

theorem err_none_left {r : Res} {f : St → Res}
    (h : (r.andThen f).err = none) : r.err = none := by
  cases he : r.err with
  | none => rfl
  | some e => rw [andThen_some f he] at h; rw [he] at h; cases h

theorem Res.andThen_pres {P : St → Prop} {r : Res} {f : St → Res}
    (hr : P r.st) (hf : ∀ t, P t → P (f t).st) : P (r.andThen f).st := by
  cases he : r.err with
  | none => rw [andThen_none f he]; exact hf r.st hr
  | some e => rw [andThen_some f he]; exact hr

theorem setStore_same (s : Store) (n : PName) (e : Entry) :
    setStore s n e n = e := by
  unfold setStore
  rw [if_pos rfl]

theorem setStore_ne (s : Store) {m n : PName} (e : Entry) (h : m ≠ n) :
    setStore s n e m = s m := by
  unfold setStore
  rw [if_neg h]

theorem setCam_same (c : Camera) (n : PName) (v : Val) :
    setCam c n v n = v := by
  unfold setCam
  rw [if_pos rfl]

theorem setCam_ne (c : Camera) {m n : PName} (v : Val) (h : m ≠ n) :
    setCam c n v m = c m := by
  unfold setCam
  rw [if_neg h]

theorem snapSetv_frame (n : PName) (v : Val) (s : St) :
    (snapSetv n v s).st.pars = s.pars ∧ (snapSetv n v s).st.cam = s.cam ∧
    (snapSetv n v s).st.trace = s.trace ∧
    (snapSetv n v s).st.running = s.running ∧
    (snapSetv n v s).st.camera_working = s.camera_working := by
  unfold snapSetv
  split <;> exact ⟨rfl, rfl, rfl, rfl, rfl⟩

theorem snapSetv_snap_ne {m n : PName} (v : Val) (s : St) (h : m ≠ n) :
    (snapSetv n v s).st.snap m = s.snap m := by
  unfold snapSetv
  split
  · exact setStore_ne _ _ h
  · rfl

theorem snapSetv_ok {n : PName} {v : Val} {s : St}
    (h : (snapSetv n v s).err = none) :
    (snapSetv n v s).st.snap = setStore s.snap n { s.snap n with value := v } := by
  unfold snapSetv at h ⊢
  split at h
  · rename_i hc
    rw [if_pos hc]
    rfl
  · cases h

theorem parsSetv_frame (n : PName) (v : Val) (s : St) :
    (parsSetv n v s).st.snap = s.snap ∧ (parsSetv n v s).st.cam = s.cam ∧
    (parsSetv n v s).st.trace = s.trace ∧
    (parsSetv n v s).st.running = s.running ∧
    (parsSetv n v s).st.camera_working = s.camera_working := by
  unfold parsSetv
  split <;> exact ⟨rfl, rfl, rfl, rfl, rfl⟩

theorem parsSetv_pars_ne {m n : PName} (v : Val) (s : St) (h : m ≠ n) :
    (parsSetv n v s).st.pars m = s.pars m := by
  unfold parsSetv
  split
  · exact setStore_ne _ _ h
  · rfl

theorem parsSetv_ok {n : PName} {v : Val} {s : St}
    (h : (parsSetv n v s).err = none) :
    (parsSetv n v s).st.pars = setStore s.pars n { s.pars n with value := v } := by
  unfold parsSetv at h ⊢
  split at h
  · rename_i hc
    rw [if_pos hc]
    rfl
  · cases h

end PointGrey

namespace PointGrey

theorem translateAOI_pres {P : St → Prop} {s : St}
    (hP : ∀ t n v, n ∈ derivedSix → P t → P (snapSetv n v t).st) (hs : P s) :
    P (translateAOI s).st := by
  unfold translateAOI
  apply Res.andThen_pres (hP s _ _ (by decide) hs)
  intro t1 h1
  apply Res.andThen_pres (hP t1 _ _ (by decide) h1)
  intro t2 h2
  apply Res.andThen_pres (hP t2 _ _ (by decide) h2)
  intro t3 h3
  apply Res.andThen_pres (hP t3 _ _ (by decide) h3)
  intro t4 h4
  apply Res.andThen_pres (hP t4 _ _ (by decide) h4)
  intro t5 h5
  exact hP t5 _ _ (by decide) h5

theorem translate_frame (s : St) :
    (translateAOI s).st.pars = s.pars ∧ (translateAOI s).st.cam = s.cam ∧
    (translateAOI s).st.trace = s.trace ∧
    (translateAOI s).st.running = s.running ∧
    (translateAOI s).st.camera_working = s.camera_working := by
  apply translateAOI_pres (s := s)
    (P := fun t => t.pars = s.pars ∧ t.cam = s.cam ∧ t.trace = s.trace ∧
      t.running = s.running ∧ t.camera_working = s.camera_working)
  · intro t n v _ ht
    obtain ⟨f1, f2, f3, f4, f5⟩ := snapSetv_frame n v t
    exact ⟨f1.trans ht.1, f2.trans ht.2.1, f3.trans ht.2.2.1,
      f4.trans ht.2.2.2.1, f5.trans ht.2.2.2.2⟩
  · exact ⟨rfl, rfl, rfl, rfl, rfl⟩

theorem translate_snap_outside {s : St} {n : PName} (hn : n ∉ derivedSix) :
    (translateAOI s).st.snap n = s.snap n := by
  apply translateAOI_pres (s := s) (P := fun t => t.snap n = s.snap n)
  · intro t m v hm ht
    rw [snapSetv_snap_ne v t (fun he => hn (by rw [he]; exact hm))]
    exact ht
  · rfl

theorem tracked_not_derived : ∀ n ∈ pgreyProps, n ∉ derivedSix := by decide

theorem toChange_translate (s : St) (initialization : Bool) :
    toChange (translateAOI s).st.pars (translateAOI s).st.snap initialization =
      toChange s.pars s.snap initialization := by
  unfold toChange
  apply List.filter_congr
  intro n hn
  rw [(translate_frame s).1]
  unfold getv
  rw [translate_snap_outside (tracked_not_derived n hn)]

theorem preWrite_frame (s : St) (n : PName) :
    (preWrite s n).pars = s.pars ∧ (preWrite s n).snap = s.snap ∧
    (preWrite s n).running = s.running ∧
    (preWrite s n).camera_working = s.camera_working := by
  unfold preWrite
  repeat' split
  all_goals exact ⟨rfl, rfl, rfl, rfl⟩

theorem preWrite_trace (s : St) (n : PName) :
    ∃ w, (preWrite s n).trace = s.trace ++ w ∧
      ∀ e ∈ w, ∃ m v, e = Evt.hwSet m v := by
  unfold preWrite
  repeat' split
  all_goals first
    | exact ⟨[Evt.hwSet _ _], rfl, by simp⟩
    | exact ⟨[], (List.append_nil _).symm, by simp⟩

theorem writeOne_frame (s : St) (n : PName) :
    (writeOne s n).pars = s.pars ∧ (writeOne s n).snap = s.snap ∧
    (writeOne s n).running = s.running ∧
    (writeOne s n).camera_working = s.camera_working := by
  unfold writeOne camSet
  exact (preWrite_frame s n).imp id (fun h => h.imp id (fun h => h))

theorem writeOne_trace (s : St) (n : PName) :
    ∃ w, (writeOne s n).trace = s.trace ++ w ∧
      ∀ e ∈ w, ∃ m v, e = Evt.hwSet m v := by
  obtain ⟨w, hw, hall⟩ := preWrite_trace s n
  refine ⟨w ++ [Evt.hwSet n (getv s.snap n)], ?_, ?_⟩
  · unfold writeOne camSet
    simp [hw]
  · intro e he
    rcases List.mem_append.1 he with h | h
    · exact hall e h
    · exact ⟨n, getv s.snap n, List.mem_singleton.1 h⟩

theorem writePhase_frame (l : List PName) (s : St) :
    (writePhase l s).pars = s.pars ∧ (writePhase l s).snap = s.snap ∧
    (writePhase l s).running = s.running ∧
    (writePhase l s).camera_working = s.camera_working := by
  induction l generalizing s with
  | nil => exact ⟨rfl, rfl, rfl, rfl⟩
  | cons n t ih =>
    have h1 := writeOne_frame s n
    have h2 := ih (writeOne s n)
    exact ⟨h2.1.trans h1.1, h2.2.1.trans h1.2.1,
      h2.2.2.1.trans h1.2.2.1, h2.2.2.2.trans h1.2.2.2⟩

theorem writePhase_trace (l : List PName) (s : St) :
    ∃ w, (writePhase l s).trace = s.trace ++ w ∧
      ∀ e ∈ w, ∃ m v, e = Evt.hwSet m v := by
  induction l generalizing s with
  | nil => exact ⟨[], by simp [writePhase], by simp⟩
  | cons n t ih =>
    obtain ⟨w1, hw1, hall1⟩ := writeOne_trace s n
    obtain ⟨w2, hw2, hall2⟩ := ih (writeOne s n)
    refine ⟨w1 ++ w2, ?_, ?_⟩
    · show (writePhase t (writeOne s n)).trace = _
      rw [hw2, hw1, List.append_assoc]
    · intro e he
      rcases List.mem_append.1 he with h | h
      · exact hall1 e h
      · exact hall2 e h

end PointGrey

namespace PointGrey

theorem foldSteps_nil (f : PName → St → Res) (s : St) :
    foldSteps f [] s = Res.ok s := rfl

theorem foldSteps_cons (f : PName → St → Res) (n : PName) (t : List PName)
    (s : St) : foldSteps f (n :: t) s = (f n s).andThen (foldSteps f t) := rfl

theorem foldSteps_pres {P : St → Prop} {f : PName → St → Res} :
    ∀ l : List PName, (∀ n ∈ l, ∀ t, P t → P ((f n t).st)) →
      ∀ s, P s → P ((foldSteps f l s).st) := by
  intro l
  induction l with
  | nil => intro _ s hs; exact hs
  | cons n t ih =>
    intro hf s hs
    rw [foldSteps_cons]
    apply Res.andThen_pres (hf n (List.mem_cons_self n t) s hs)
    intro u hu
    exact ih (fun m hm => hf m (List.mem_cons_of_mem n hm)) u hu

theorem foldSteps_err_cons {f : PName → St → Res} {n : PName} {t : List PName}
    {s : St} (h : (foldSteps f (n :: t) s).err = none) :
    (f n s).err = none ∧ foldSteps f (n :: t) s = foldSteps f t (f n s).st := by
  rw [foldSteps_cons] at h ⊢
  have h1 : (f n s).err = none := err_none_left h
  exact ⟨h1, andThen_none _ h1⟩

theorem republishOne_frame (hwMin hwMax : Camera → PName → Val)
    (initialization : Bool) (n : PName) (s : St) :
    (republishOne hwMin hwMax initialization n s).st.snap = s.snap ∧
    (republishOne hwMin hwMax initialization n s).st.cam = s.cam ∧
    (republishOne hwMin hwMax initialization n s).st.trace = s.trace ∧
    (republishOne hwMin hwMax initialization n s).st.running = s.running ∧
    (republishOne hwMin hwMax initialization n s).st.camera_working =
      s.camera_working := by
  unfold republishOne
  split
  · exact ⟨rfl, rfl, rfl, rfl, rfl⟩
  · exact parsSetv_frame _ _ _

theorem republishOne_pars_ne (hwMin hwMax : Camera → PName → Val)
    (initialization : Bool) {m n : PName} (s : St) (h : m ≠ n) :
    (republishOne hwMin hwMax initialization n s).st.pars m = s.pars m := by
  unfold republishOne
  split
  · rfl
  · rw [parsSetv_pars_ne _ _ h]
    simp only [parsSetMinimum, parsSetMaximum]
    rw [setStore_ne _ _ h, setStore_ne _ _ h]

theorem republishOne_ok_set {hwMin hwMax : Camera → PName → Val}
    {initialization : Bool} {n : PName} {s : St}
    (hno : ¬(initialization = true ∧ n ∈ exemptFive))
    (hok : (republishOne hwMin hwMax initialization n s).err = none) :
    (republishOne hwMin hwMax initialization n s).st.pars n =
      ⟨getv s.snap n, hwMin s.cam n, hwMax s.cam n⟩ := by
  unfold republishOne at hok ⊢
  rw [if_neg hno] at hok ⊢
  rw [parsSetv_ok hok, setStore_same]
  simp only [parsSetMinimum, parsSetMaximum, setStore_same]

theorem republishFold_frame (hwMin hwMax : Camera → PName → Val)
    (initialization : Bool) (l : List PName) (s : St) :
    (foldSteps (republishOne hwMin hwMax initialization) l s).st.snap = s.snap ∧
    (foldSteps (republishOne hwMin hwMax initialization) l s).st.cam = s.cam ∧
    (foldSteps (republishOne hwMin hwMax initialization) l s).st.trace =
      s.trace ∧
    (foldSteps (republishOne hwMin hwMax initialization) l s).st.running =
      s.running ∧
    (foldSteps (republishOne hwMin hwMax initialization) l s).st.camera_working =
      s.camera_working := by
  apply foldSteps_pres (P := fun t => t.snap = s.snap ∧ t.cam = s.cam ∧
    t.trace = s.trace ∧ t.running = s.running ∧
    t.camera_working = s.camera_working)
  · intro n _ t ht
    obtain ⟨f1, f2, f3, f4, f5⟩ :=
      republishOne_frame hwMin hwMax initialization n t
    exact ⟨f1.trans ht.1, f2.trans ht.2.1, f3.trans ht.2.2.1,
      f4.trans ht.2.2.2.1, f5.trans ht.2.2.2.2⟩
  · exact ⟨rfl, rfl, rfl, rfl, rfl⟩

theorem republishPhase_frame (hwMin hwMax : Camera → PName → Val)
    (initialization : Bool) (s : St) :
    (republishPhase hwMin hwMax initialization s).st.snap = s.snap ∧
    (republishPhase hwMin hwMax initialization s).st.cam = s.cam ∧
    (republishPhase hwMin hwMax initialization s).st.trace = s.trace ∧
    (republishPhase hwMin hwMax initialization s).st.running = s.running ∧
    (republishPhase hwMin hwMax initialization s).st.camera_working =
      s.camera_working :=
  republishFold_frame hwMin hwMax initialization pgreyProps s

theorem republishFold_pars_notin (hwMin hwMax : Camera → PName → Val)
    (initialization : Bool) {n : PName} {l : List PName} (hn : n ∉ l) (s : St) :
    (foldSteps (republishOne hwMin hwMax initialization) l s).st.pars n =
      s.pars n := by
  apply foldSteps_pres (P := fun t => t.pars n = s.pars n)
  · intro m hm t ht
    rw [republishOne_pars_ne hwMin hwMax initialization t
      (fun he => hn (by rw [he]; exact hm))]
    exact ht
  · rfl

theorem republishFold_skip (hwMin hwMax : Camera → PName → Val)
    {initialization : Bool} {n : PName}
    (hskip : initialization = true ∧ n ∈ exemptFive) (l : List PName) (s : St) :
    (foldSteps (republishOne hwMin hwMax initialization) l s).st.pars n =
      s.pars n := by
  apply foldSteps_pres (P := fun t => t.pars n = s.pars n)
  · intro m _ t ht
    by_cases hmn : n = m
    · subst hmn
      unfold republishOne
      rw [if_pos hskip]
      exact ht
    · rw [republishOne_pars_ne hwMin hwMax initialization t hmn]
      exact ht
  · rfl

theorem republishFold_set (hwMin hwMax : Camera → PName → Val)
    {initialization : Bool} {n : PName}
    (hno : ¬(initialization = true ∧ n ∈ exemptFive)) :
    ∀ l : List PName, l.Nodup → n ∈ l → ∀ s : St,
      (foldSteps (republishOne hwMin hwMax initialization) l s).err = none →
      (foldSteps (republishOne hwMin hwMax initialization) l s).st.pars n =
        ⟨getv s.snap n, hwMin s.cam n, hwMax s.cam n⟩ := by
  intro l
  induction l with
  | nil => intro _ hmem; cases hmem
  | cons m t ih =>
    intro hnd hmem s hok
    obtain ⟨h1, h2⟩ := foldSteps_err_cons hok
    rw [h2] at hok ⊢
    by_cases hmn : n = m
    · subst hmn
      have hstep := republishOne_ok_set hno h1
      have hnot : n ∉ t := (List.nodup_cons.1 hnd).1
      rw [republishFold_pars_notin hwMin hwMax initialization hnot]
      exact hstep
    · have hmem2 : n ∈ t := by
        rcases List.mem_cons.1 hmem with h | h
        · exact absurd h hmn
        · exact h
      have hnd2 := (List.nodup_cons.1 hnd).2
      rw [ih hnd2 hmem2 (republishOne hwMin hwMax initialization m s).st hok]
      obtain ⟨f1, f2, _, _, _⟩ :=
        republishOne_frame hwMin hwMax initialization m s
      rw [getv, f1, f2]
      rfl

end PointGrey

namespace PointGrey

theorem expo_frame (hwMax : Camera → PName → Val) (s : St) :
    (exposurePhase hwMax s).st.snap = s.snap ∧
    (exposurePhase hwMax s).st.running = s.running ∧
    (exposurePhase hwMax s).st.camera_working = s.camera_working := by
  unfold exposurePhase
  apply Res.andThen_pres (P := fun t => t.snap = s.snap ∧
    t.running = s.running ∧ t.camera_working = s.camera_working)
  · obtain ⟨f1, _, _, f4, f5⟩ := parsSetv_frame PName.exposure_time _
      (camSet PName.ExposureTime (hwMax s.cam PName.ExposureTime) s)
    exact ⟨f1, f4, f5⟩
  · intro t ht
    obtain ⟨f1, _, _, f4, f5⟩ :=
      parsSetv_frame PName.fps (t.cam PName.AcquisitionFrameRate) t
    exact ⟨f1.trans ht.1, f4.trans ht.2.1, f5.trans ht.2.2⟩

theorem expo_trace (hwMax : Camera → PName → Val) (s : St) :
    (exposurePhase hwMax s).st.trace =
      s.trace ++ [Evt.hwSet PName.ExposureTime (hwMax s.cam PName.ExposureTime)] := by
  unfold exposurePhase
  apply Res.andThen_pres (P := fun t => t.trace =
    s.trace ++ [Evt.hwSet PName.ExposureTime (hwMax s.cam PName.ExposureTime)])
  · exact (parsSetv_frame _ _ _).2.2.1
  · intro t ht
    exact ((parsSetv_frame _ _ _).2.2.1).trans ht

theorem expo_cam (hwMax : Camera → PName → Val) (s : St) :
    (exposurePhase hwMax s).st.cam =
      setCam s.cam PName.ExposureTime (hwMax s.cam PName.ExposureTime) := by
  unfold exposurePhase
  apply Res.andThen_pres (P := fun t => t.cam =
    setCam s.cam PName.ExposureTime (hwMax s.cam PName.ExposureTime))
  · exact (parsSetv_frame _ _ _).2.1
  · intro t ht
    exact ((parsSetv_frame _ _ _).2.1).trans ht

theorem expo_pars_ne (hwMax : Camera → PName → Val) {m : PName}
    (h1 : m ≠ PName.exposure_time) (h2 : m ≠ PName.fps) (s : St) :
    (exposurePhase hwMax s).st.pars m = s.pars m := by
  unfold exposurePhase
  apply Res.andThen_pres (P := fun t => t.pars m = s.pars m)
  · exact parsSetv_pars_ne _ _ h1
  · intro t ht
    exact (parsSetv_pars_ne _ _ h2).trans ht

theorem expo_ok_vals {hwMax : Camera → PName → Val} {s : St}
    (hok : (exposurePhase hwMax s).err = none) :
    getv (exposurePhase hwMax s).st.pars PName.exposure_time =
      (⟨1, 1000000⟩ : Val) * hwMax s.cam PName.ExposureTime ∧
    getv (exposurePhase hwMax s).st.pars PName.fps =
      s.cam PName.AcquisitionFrameRate := by
  unfold exposurePhase at hok ⊢
  have e1 : (parsSetv PName.exposure_time
      ((⟨1, 1000000⟩ : Val) *
        (camSet PName.ExposureTime (hwMax s.cam PName.ExposureTime) s).cam
          PName.ExposureTime)
      (camSet PName.ExposureTime (hwMax s.cam PName.ExposureTime) s)).err = none :=
    err_none_left hok
  rw [andThen_none _ e1] at hok ⊢
  have hcam : (camSet PName.ExposureTime (hwMax s.cam PName.ExposureTime) s).cam
      PName.ExposureTime = hwMax s.cam PName.ExposureTime := by
    show setCam s.cam PName.ExposureTime (hwMax s.cam PName.ExposureTime)
      PName.ExposureTime = _
    exact setCam_same _ _ _
  constructor
  · rw [getv, parsSetv_pars_ne _ _ (by decide : PName.exposure_time ≠ PName.fps),
      parsSetv_ok e1, setStore_same]
    rw [hcam]
  · rw [getv, parsSetv_ok hok, setStore_same]
    have hfrm := (parsSetv_frame PName.exposure_time
      ((⟨1, 1000000⟩ : Val) *
        (camSet PName.ExposureTime (hwMax s.cam PName.ExposureTime) s).cam
          PName.ExposureTime)
      (camSet PName.ExposureTime (hwMax s.cam PName.ExposureTime) s)).2.1
    dsimp only
    rw [hfrm]
    show setCam s.cam PName.ExposureTime (hwMax s.cam PName.ExposureTime)
        PName.AcquisitionFrameRate = s.cam PName.AcquisitionFrameRate
    exact setCam_ne _ _
      (show PName.AcquisitionFrameRate ≠ PName.ExposureTime by decide)

theorem run_err_eq (hwMin hwMax : Camera → PName → Val) (initialization : Bool)
    (s : St) {e : Err} (h1 : (translateAOI s).err = some e) :
    newParameters hwMin hwMax initialization s = translateAOI s := by
  unfold newParameters
  rw [andThen_some _ h1]

theorem run_empty_eq (hwMin hwMax : Camera → PName → Val) (initialization : Bool)
    (s : St) (h1 : (translateAOI s).err = none)
    (htc : toChange s.pars s.snap initialization = []) :
    newParameters hwMin hwMax initialization s =
      Res.ok { (translateAOI s).st with camera_working := true } := by
  unfold newParameters
  rw [andThen_none _ h1]
  dsimp only [superNewParameters, Res.ok, Res.andThen]
  rw [toChange_translate s initialization, if_pos htc]

theorem run_ne_eq (hwMin hwMax : Camera → PName → Val) (initialization : Bool)
    (s : St) (h1 : (translateAOI s).err = none)
    (htc : ¬ toChange s.pars s.snap initialization = []) :
    newParameters hwMin hwMax initialization s =
      Res.andThen
        (republishPhase hwMin hwMax initialization
          (preRepublishSt initialization s)) fun s6 =>
      Res.andThen (exposurePhase hwMax s6) fun s7 =>
        Res.ok (emitChanged (if s.running then startCamera s7 else s7)) := by
  unfold newParameters preRepublishSt
  rw [andThen_none _ h1]
  dsimp only [superNewParameters, Res.ok, Res.andThen]
  rw [toChange_translate s initialization, if_neg htc,
    (translate_frame s).2.2.2.1]

end PointGrey

namespace PointGrey

theorem applyTrace_append (c : Camera) (t u : List Evt) :
    applyTrace c (t ++ u) = applyTrace (applyTrace c t) u := by
  unfold applyTrace
  exact List.foldl_append applyEvt c t u

theorem traceCam_keep {c : Camera} {s t : St} (hc : t.cam = s.cam)
    (ht : t.trace = s.trace) (h : TraceCam c s) : TraceCam c t := by
  unfold TraceCam at h ⊢
  rw [hc, ht]
  exact h

theorem traceCam_camSet {c : Camera} {s : St} (n : PName) (v : Val)
    (h : TraceCam c s) : TraceCam c (camSet n v s) := by
  unfold TraceCam at h ⊢
  show setCam s.cam n v = applyTrace c (s.trace ++ [Evt.hwSet n v])
  rw [applyTrace_append, h]
  rfl

theorem traceCam_stop {c : Camera} {s : St} (h : TraceCam c s) :
    TraceCam c (stopCamera s) := by
  unfold TraceCam at h ⊢
  show s.cam = applyTrace c (s.trace ++ [Evt.stop])
  rw [applyTrace_append, h]
  rfl

theorem traceCam_start {c : Camera} {s : St} (h : TraceCam c s) :
    TraceCam c (startCamera s) := by
  unfold TraceCam at h ⊢
  show s.cam = applyTrace c (s.trace ++ [Evt.start])
  rw [applyTrace_append, h]
  rfl

theorem traceCam_emit {c : Camera} {s : St} (h : TraceCam c s) :
    TraceCam c (emitChanged s) := by
  unfold TraceCam at h ⊢
  show s.cam = applyTrace c (s.trace ++ [Evt.emit])
  rw [applyTrace_append, h]
  rfl

theorem traceCam_translate {c : Camera} {s : St} (h : TraceCam c s) :
    TraceCam c (translateAOI s).st := by
  apply translateAOI_pres (P := TraceCam c)
  · intro t n v _ ht
    obtain ⟨_, f2, f3, _, _⟩ := snapSetv_frame n v t
    exact traceCam_keep f2 f3 ht
  · exact h

theorem traceCam_preWrite {c : Camera} {s : St} (n : PName)
    (h : TraceCam c s) : TraceCam c (preWrite s n) := by
  unfold preWrite
  repeat' split
  all_goals first
    | exact traceCam_camSet _ _ h
    | exact h

theorem traceCam_writePhase {c : Camera} (l : List PName) {s : St}
    (h : TraceCam c s) : TraceCam c (writePhase l s) := by
  induction l generalizing s with
  | nil => exact h
  | cons n t ih =>
    exact ih (traceCam_camSet _ _ (traceCam_preWrite n h))

theorem traceCam_republish {c : Camera} (hwMin hwMax : Camera → PName → Val)
    (initialization : Bool) {s : St} (h : TraceCam c s) :
    TraceCam c (republishPhase hwMin hwMax initialization s).st := by
  obtain ⟨_, f2, f3, _, _⟩ :=
    republishFold_frame hwMin hwMax initialization pgreyProps s
  exact traceCam_keep f2 f3 h

theorem traceCam_expo {c : Camera} (hwMax : Camera → PName → Val) {s : St}
    (h : TraceCam c s) : TraceCam c (exposurePhase hwMax s).st := by
  have h1 : TraceCam c (camSet PName.ExposureTime
      (hwMax s.cam PName.ExposureTime) s) := traceCam_camSet _ _ h
  apply traceCam_keep (expo_cam hwMax s) (expo_trace hwMax s)
    (traceCam_camSet _ _ h)

theorem traceCam_newParameters (hwMin hwMax : Camera → PName → Val)
    (initialization : Bool) {c : Camera} {s : St} (h : TraceCam c s) :
    TraceCam c (newParameters hwMin hwMax initialization s).st := by
  cases h1 : (translateAOI s).err with
  | some e =>
    rw [run_err_eq hwMin hwMax initialization s h1]
    exact traceCam_translate h
  | none =>
    by_cases htc : toChange s.pars s.snap initialization = []
    · rw [run_empty_eq hwMin hwMax initialization s h1 htc]
      exact traceCam_keep rfl rfl (traceCam_translate h)
    · rw [run_ne_eq hwMin hwMax initialization s h1 htc]
      have h5 : TraceCam c (preRepublishSt initialization s) := by
        unfold preRepublishSt
        dsimp only [superNewParameters, Res.ok, Res.andThen]
        apply traceCam_writePhase
        split
        · exact traceCam_stop (traceCam_keep rfl rfl (traceCam_translate h))
        · exact traceCam_keep rfl rfl (traceCam_translate h)
      apply Res.andThen_pres
        (traceCam_republish hwMin hwMax initialization h5)
      intro t6 h6
      dsimp only
      apply Res.andThen_pres (traceCam_expo hwMax h6)
      intro t7 h7
      dsimp only
      split
      · exact traceCam_emit (traceCam_start h7)
      · exact traceCam_emit h7

end PointGrey

namespace PointGrey

theorem snapSetv_getv_ne {m n : PName} (v : Val) (s : St) (h : m ≠ n) :
    getv (snapSetv n v s).st.snap m = getv s.snap m := by
  unfold getv
  rw [snapSetv_snap_ne v s h]

theorem snapSetv_getv_ok {n : PName} {v : Val} {s : St}
    (h : (snapSetv n v s).err = none) :
    getv (snapSetv n v s).st.snap n = v := by
  unfold getv
  rw [snapSetv_ok h, setStore_same]

theorem derived_after_translate {s : St} (h1 : (translateAOI s).err = none) :
    getv (translateAOI s).st.snap PName.x_end =
      getv s.snap PName.OffsetX + getv s.snap PName.Width - 1 ∧
    getv (translateAOI s).st.snap PName.x_pixels = getv s.snap PName.Width ∧
    getv (translateAOI s).st.snap PName.x_start =
      getv s.snap PName.OffsetX + 1 ∧
    getv (translateAOI s).st.snap PName.y_end =
      getv s.snap PName.OffsetY + getv s.snap PName.Height - 1 ∧
    getv (translateAOI s).st.snap PName.y_pixels = getv s.snap PName.Height ∧
    getv (translateAOI s).st.snap PName.y_start =
      getv s.snap PName.OffsetY + 1 := by
  unfold translateAOI at h1 ⊢
  have e1 := err_none_left h1
  rw [andThen_none _ e1] at h1 ⊢
  have e2 := err_none_left h1
  rw [andThen_none _ e2] at h1 ⊢
  have e3 := err_none_left h1
  rw [andThen_none _ e3] at h1 ⊢
  have e4 := err_none_left h1
  rw [andThen_none _ e4] at h1 ⊢
  have e5 := err_none_left h1
  rw [andThen_none _ e5] at h1 ⊢
  refine ⟨?_, ?_, ?_, ?_, ?_, ?_⟩
  · rw [snapSetv_getv_ne _ _ (show PName.x_end ≠ PName.y_start by decide),
      snapSetv_getv_ne _ _ (show PName.x_end ≠ PName.y_pixels by decide),
      snapSetv_getv_ne _ _ (show PName.x_end ≠ PName.y_end by decide),
      snapSetv_getv_ne _ _ (show PName.x_end ≠ PName.x_start by decide),
      snapSetv_getv_ne _ _ (show PName.x_end ≠ PName.x_pixels by decide),
      snapSetv_getv_ok e1]
  · rw [snapSetv_getv_ne _ _ (show PName.x_pixels ≠ PName.y_start by decide),
      snapSetv_getv_ne _ _ (show PName.x_pixels ≠ PName.y_pixels by decide),
      snapSetv_getv_ne _ _ (show PName.x_pixels ≠ PName.y_end by decide),
      snapSetv_getv_ne _ _ (show PName.x_pixels ≠ PName.x_start by decide),
      snapSetv_getv_ok e2,
      snapSetv_getv_ne _ _ (show PName.Width ≠ PName.x_end by decide)]
  · rw [snapSetv_getv_ne _ _ (show PName.x_start ≠ PName.y_start by decide),
      snapSetv_getv_ne _ _ (show PName.x_start ≠ PName.y_pixels by decide),
      snapSetv_getv_ne _ _ (show PName.x_start ≠ PName.y_end by decide),
      snapSetv_getv_ok e3,
      snapSetv_getv_ne _ _ (show PName.OffsetX ≠ PName.x_pixels by decide),
      snapSetv_getv_ne _ _ (show PName.OffsetX ≠ PName.x_end by decide)]
  · rw [snapSetv_getv_ne _ _ (show PName.y_end ≠ PName.y_start by decide),
      snapSetv_getv_ne _ _ (show PName.y_end ≠ PName.y_pixels by decide),
      snapSetv_getv_ok e4,
      snapSetv_getv_ne _ _ (show PName.OffsetY ≠ PName.x_start by decide),
      snapSetv_getv_ne _ _ (show PName.OffsetY ≠ PName.x_pixels by decide),
      snapSetv_getv_ne _ _ (show PName.OffsetY ≠ PName.x_end by decide),
      snapSetv_getv_ne _ _ (show PName.Height ≠ PName.x_start by decide),
      snapSetv_getv_ne _ _ (show PName.Height ≠ PName.x_pixels by decide),
      snapSetv_getv_ne _ _ (show PName.Height ≠ PName.x_end by decide)]
  · rw [snapSetv_getv_ne _ _ (show PName.y_pixels ≠ PName.y_start by decide),
      snapSetv_getv_ok e5,
      snapSetv_getv_ne _ _ (show PName.Height ≠ PName.y_end by decide),
      snapSetv_getv_ne _ _ (show PName.Height ≠ PName.x_start by decide),
      snapSetv_getv_ne _ _ (show PName.Height ≠ PName.x_pixels by decide),
      snapSetv_getv_ne _ _ (show PName.Height ≠ PName.x_end by decide)]
  · rw [snapSetv_getv_ok h1,
      snapSetv_getv_ne _ _ (show PName.OffsetY ≠ PName.y_pixels by decide),
      snapSetv_getv_ne _ _ (show PName.OffsetY ≠ PName.y_end by decide),
      snapSetv_getv_ne _ _ (show PName.OffsetY ≠ PName.x_start by decide),
      snapSetv_getv_ne _ _ (show PName.OffsetY ≠ PName.x_pixels by decide),
      snapSetv_getv_ne _ _ (show PName.OffsetY ≠ PName.x_end by decide)]

theorem preRepublish_pars (initialization : Bool) (s : St) :
    (preRepublishSt initialization s).pars = s.pars := by
  unfold preRepublishSt
  dsimp only [superNewParameters, Res.ok, Res.andThen]
  rw [(writePhase_frame _ _).1]
  split
  · exact (translate_frame s).1
  · exact (translate_frame s).1

theorem preRepublish_snap (initialization : Bool) (s : St) :
    (preRepublishSt initialization s).snap = (translateAOI s).st.snap := by
  unfold preRepublishSt
  dsimp only [superNewParameters, Res.ok, Res.andThen]
  rw [(writePhase_frame _ _).2.1]
  split
  · rfl
  · rfl

theorem preRepublish_running (initialization : Bool) (s : St) :
    (preRepublishSt initialization s).running =
      (if s.running then false else s.running) := by
  unfold preRepublishSt
  dsimp only [superNewParameters, Res.ok, Res.andThen]
  rw [(writePhase_frame _ _).2.2.1, (translate_frame s).2.2.2.1]
  split
  · rfl
  · rfl

theorem preRepublish_camera_working (initialization : Bool) (s : St) :
    (preRepublishSt initialization s).camera_working = true := by
  unfold preRepublishSt
  dsimp only [superNewParameters, Res.ok, Res.andThen]
  rw [(writePhase_frame _ _).2.2.2]
  split
  · rfl
  · rfl

theorem preRepublish_trace (initialization : Bool) (s : St) (hs : s.trace = []) :
    ∃ w, (∀ e ∈ w, ∃ m v, e = Evt.hwSet m v) ∧
      (preRepublishSt initialization s).trace =
        (if s.running then [Evt.stop] else []) ++ w := by
  unfold preRepublishSt
  dsimp only [superNewParameters, Res.ok, Res.andThen]
  obtain ⟨w, hw, hall⟩ := writePhase_trace
    (toChange (translateAOI s).st.pars (translateAOI s).st.snap initialization)
    (if (translateAOI s).st.running = true then
      stopCamera { (translateAOI s).st with camera_working := true }
    else { (translateAOI s).st with camera_working := true })
  refine ⟨w, hall, ?_⟩
  rw [hw, (translate_frame s).2.2.2.1]
  by_cases hr : s.running = true
  · rw [if_pos hr, if_pos hr]
    show (translateAOI s).st.trace ++ [Evt.stop] ++ w = [Evt.stop] ++ w
    rw [(translate_frame s).2.2.1, hs]
    rfl
  · rw [if_neg hr, if_neg hr]
    show (translateAOI s).st.trace ++ w = [] ++ w
    rw [(translate_frame s).2.2.1, hs]

theorem run_translate_ok {hwMin hwMax : Camera → PName → Val}
    {initialization : Bool} {s : St}
    (hok : (newParameters hwMin hwMax initialization s).err = none) :
    (translateAOI s).err = none := by
  unfold newParameters at hok
  exact err_none_left hok

theorem run_snap (hwMin hwMax : Camera → PName → Val) (initialization : Bool)
    (s : St) (h1 : (translateAOI s).err = none) :
    (newParameters hwMin hwMax initialization s).st.snap =
      (translateAOI s).st.snap := by
  by_cases htc : toChange s.pars s.snap initialization = []
  · rw [run_empty_eq hwMin hwMax initialization s h1 htc]
    rfl
  · rw [run_ne_eq hwMin hwMax initialization s h1 htc]
    apply Res.andThen_pres (P := fun t => t.snap = (translateAOI s).st.snap)
    · exact ((republishFold_frame hwMin hwMax initialization pgreyProps _).1).trans
        (preRepublish_snap initialization s)
    · intro t ht
      dsimp only
      apply Res.andThen_pres (P := fun t => t.snap = (translateAOI s).st.snap)
        ((expo_frame hwMax t).1.trans ht)
      intro u hu
      dsimp only
      split
      · exact hu
      · exact hu

theorem run_camera_working (hwMin hwMax : Camera → PName → Val)
    (initialization : Bool) (s : St) (h1 : (translateAOI s).err = none) :
    (newParameters hwMin hwMax initialization s).st.camera_working = true := by
  by_cases htc : toChange s.pars s.snap initialization = []
  · rw [run_empty_eq hwMin hwMax initialization s h1 htc]
    rfl
  · rw [run_ne_eq hwMin hwMax initialization s h1 htc]
    apply Res.andThen_pres (P := fun t => t.camera_working = true)
    · exact ((republishFold_frame hwMin hwMax initialization pgreyProps _).2.2.2.2).trans
        (preRepublish_camera_working initialization s)
    · intro t ht
      dsimp only
      apply Res.andThen_pres (P := fun t => t.camera_working = true)
        ((expo_frame hwMax t).2.2.trans ht)
      intro u hu
      dsimp only
      split
      · exact hu
      · exact hu

theorem not_start_mem {w : List Evt}
    (hall : ∀ e ∈ w, ∃ m v, e = Evt.hwSet m v) : Evt.start ∉ w := by
  intro h
  obtain ⟨m, v, he⟩ := hall _ h
  cases he

theorem not_emit_mem {w : List Evt}
    (hall : ∀ e ∈ w, ∃ m v, e = Evt.hwSet m v) : Evt.emit ∉ w := by
  intro h
  obtain ⟨m, v, he⟩ := hall _ h
  cases he

theorem not_stop_mem {w : List Evt}
    (hall : ∀ e ∈ w, ∃ m v, e = Evt.hwSet m v) : Evt.stop ∉ w := by
  intro h
  obtain ⟨m, v, he⟩ := hall _ h
  cases he

end PointGrey

namespace PointGrey

/-- C1: for every reconfiguration state and every geometry property among
Height, OffsetX, OffsetY, Width, one iteration of the hardware-write loop
behaves as follows: if the requested (snapshot) value is strictly larger
than the store's current value then, immediately before the property's own
hardware write, its companion (Height's is OffsetY, OffsetX's is Width,
OffsetY's is Height, Width's is OffsetX) is written to its requested value;
if the requested value is less than or equal to the current value, no
companion pre-write is issued for that property. -/
theorem claim1_companion_prewrite (s : St) (n : PName) (hmem : n ∈ geomNames) :
    (writeOne s n).trace = s.trace ++
      (if getv s.pars n < getv s.snap n then
        [Evt.hwSet (companion n) (getv s.snap (companion n)),
         Evt.hwSet n (getv s.snap n)]
      else [Evt.hwSet n (getv s.snap n)]) := by
  fin_cases hmem
  all_goals unfold writeOne preWrite
  · rw [if_pos rfl]
    split <;> rename_i hc <;> simp [companion, camSet, hc]
  · rw [if_neg (show ¬ PName.OffsetX = PName.Height by decide), if_pos rfl]
    split <;> rename_i hc <;> simp [companion, camSet, hc]
  · rw [if_neg (show ¬ PName.OffsetY = PName.Height by decide),
      if_neg (show ¬ PName.OffsetY = PName.OffsetX by decide), if_pos rfl]
    split <;> rename_i hc <;> simp [companion, camSet, hc]
  · rw [if_neg (show ¬ PName.Width = PName.Height by decide),
      if_neg (show ¬ PName.Width = PName.OffsetX by decide),
      if_neg (show ¬ PName.Width = PName.OffsetY by decide), if_pos rfl]
    split <;> rename_i hc <;> simp [companion, camSet, hc]

/-- Witness for C1: in the concrete C2 scenario state, writing Height
(requested 500 < current 2048) issues no companion pre-write. -/
theorem claim1_companion_prewrite_witness :
    PName.Height ∈ geomNames ∧
    (writeOne ⟨scnPars, scnSnap, scnCam, false, false, []⟩ PName.Height).trace =
      [] ++
      (if getv scnPars PName.Height < getv scnSnap PName.Height then
        [Evt.hwSet (companion PName.Height)
          (getv scnSnap (companion PName.Height)),
         Evt.hwSet PName.Height (getv scnSnap PName.Height)]
      else [Evt.hwSet PName.Height (getv scnSnap PName.Height)]) :=
  ⟨by decide, claim1_companion_prewrite ⟨scnPars, scnSnap, scnCam, false, false, []⟩
    PName.Height (by decide)⟩

/-- C6: the changed-properties list contains exactly the tracked names whose
store value differs (numerically) from the snapshot value, except that at
initialization every tracked name is included; and when the changed list is
empty the reconfiguration issues no hardware event and no notification
(its event trace is empty). -/
theorem claim6_changed_set (hwMin hwMax : Camera → PName → Val)
    (initialization : Bool) (s : St) (hs : s.trace = []) :
    (∀ n, n ∈ toChange s.pars s.snap initialization ↔
      n ∈ pgreyProps ∧
        (¬ Val.eqv (getv s.pars n) (getv s.snap n) ∨ initialization = true)) ∧
    (toChange s.pars s.snap initialization = [] →
      (newParameters hwMin hwMax initialization s).st.trace = []) := by
  constructor
  · intro n
    unfold toChange
    rw [List.mem_filter]
    simp [Bool.or_eq_true, decide_eq_true_eq]
  · intro htc
    cases h1 : (translateAOI s).err with
    | some e =>
      rw [run_err_eq hwMin hwMax initialization s h1,
        (translate_frame s).2.2.1, hs]
    | none =>
      rw [run_empty_eq hwMin hwMax initialization s h1 htc]
      show (translateAOI s).st.trace = []
      rw [(translate_frame s).2.2.1, hs]

/-- C5: after a successful reconfiguration, the snapshot's derived entries
satisfy x_end = OffsetX + Width − 1, x_pixels = Width, x_start = OffsetX + 1,
y_end = OffsetY + Height − 1, y_pixels = Height, y_start = OffsetY + 1 (in
the requested snapshot's values), and the final snapshot equals the snapshot
as of the AOI-translation step, which precedes every hardware write. -/
theorem claim5_derived_fields (hwMin hwMax : Camera → PName → Val)
    (initialization : Bool) (s : St)
    (hok : (newParameters hwMin hwMax initialization s).err = none) :
    getv (newParameters hwMin hwMax initialization s).st.snap PName.x_end =
      getv s.snap PName.OffsetX + getv s.snap PName.Width - 1 ∧
    getv (newParameters hwMin hwMax initialization s).st.snap PName.x_pixels =
      getv s.snap PName.Width ∧
    getv (newParameters hwMin hwMax initialization s).st.snap PName.x_start =
      getv s.snap PName.OffsetX + 1 ∧
    getv (newParameters hwMin hwMax initialization s).st.snap PName.y_end =
      getv s.snap PName.OffsetY + getv s.snap PName.Height - 1 ∧
    getv (newParameters hwMin hwMax initialization s).st.snap PName.y_pixels =
      getv s.snap PName.Height ∧
    getv (newParameters hwMin hwMax initialization s).st.snap PName.y_start =
      getv s.snap PName.OffsetY + 1 ∧
    (newParameters hwMin hwMax initialization s).st.snap =
      (translateAOI s).st.snap := by
  have h1 := run_translate_ok hok
  have hd := derived_after_translate h1
  rw [run_snap hwMin hwMax initialization s h1]
  exact ⟨hd.1, hd.2.1, hd.2.2.1, hd.2.2.2.1, hd.2.2.2.2.1, hd.2.2.2.2.2, rfl⟩

/-- C10: every call of the reconfiguration entry point, even a no-op one
with an empty changed set, overwrites the incoming snapshot's derived
entries from its OffsetX/Width/OffsetY/Height values and sets the
controller's camera_working flag to true. -/
theorem claim10_noop_mutation (hwMin hwMax : Camera → PName → Val)
    (initialization : Bool) (s : St)
    (hok : (newParameters hwMin hwMax initialization s).err = none) :
    getv (newParameters hwMin hwMax initialization s).st.snap PName.x_end =
      getv s.snap PName.OffsetX + getv s.snap PName.Width - 1 ∧
    getv (newParameters hwMin hwMax initialization s).st.snap PName.x_pixels =
      getv s.snap PName.Width ∧
    getv (newParameters hwMin hwMax initialization s).st.snap PName.x_start =
      getv s.snap PName.OffsetX + 1 ∧
    getv (newParameters hwMin hwMax initialization s).st.snap PName.y_end =
      getv s.snap PName.OffsetY + getv s.snap PName.Height - 1 ∧
    getv (newParameters hwMin hwMax initialization s).st.snap PName.y_pixels =
      getv s.snap PName.Height ∧
    getv (newParameters hwMin hwMax initialization s).st.snap PName.y_start =
      getv s.snap PName.OffsetY + 1 ∧
    (newParameters hwMin hwMax initialization s).st.camera_working = true := by
  have h1 := run_translate_ok hok
  have hd := derived_after_translate h1
  rw [run_snap hwMin hwMax initialization s h1]
  exact ⟨hd.1, hd.2.1, hd.2.2.1, hd.2.2.2.1, hd.2.2.2.2.1, hd.2.2.2.2.2,
    run_camera_working hwMin hwMax initialization s h1⟩

/-- C4: when the reconfiguration runs with initialization = true, the
store's declared minimum and maximum for each of AcquisitionFrameRate,
Height, OffsetX, OffsetY, Width are left unchanged (the republish loop
skips them); in fact the whole store entry for those names is unchanged. -/
theorem claim4_init_ranges (hwMin hwMax : Camera → PName → Val) (s : St)
    (n : PName) (hmem : n ∈ exemptFive) :
    ((newParameters hwMin hwMax true s).st.pars n).minimum =
      (s.pars n).minimum ∧
    ((newParameters hwMin hwMax true s).st.pars n).maximum =
      (s.pars n).maximum := by
  have hne1 : n ≠ PName.exposure_time := by fin_cases hmem <;> decide
  have hne2 : n ≠ PName.fps := by fin_cases hmem <;> decide
  have hP : (newParameters hwMin hwMax true s).st.pars n = s.pars n := by
    cases h1 : (translateAOI s).err with
    | some e =>
      rw [run_err_eq hwMin hwMax true s h1, (translate_frame s).1]
    | none =>
      by_cases htc : toChange s.pars s.snap true = []
      · rw [run_empty_eq hwMin hwMax true s h1 htc]
        show (translateAOI s).st.pars n = s.pars n
        rw [(translate_frame s).1]
      · rw [run_ne_eq hwMin hwMax true s h1 htc]
        apply Res.andThen_pres (P := fun t => t.pars n = s.pars n)
        · show (foldSteps (republishOne hwMin hwMax true) pgreyProps
            (preRepublishSt true s)).st.pars n = s.pars n
          rw [republishFold_skip hwMin hwMax ⟨rfl, hmem⟩ pgreyProps _,
            preRepublish_pars]
        · intro t ht
          dsimp only
          apply Res.andThen_pres (P := fun t => t.pars n = s.pars n)
            ((expo_pars_ne hwMax hne1 hne2 t).trans ht)
          intro u hu
          dsimp only
          split
          · exact hu
          · exact hu
  exact ⟨by rw [hP], by rw [hP]⟩

end PointGrey

namespace PointGrey

/-- C2 counterexample: in the spec's concrete scenario (store at full frame
2048 by 2048, snapshot requesting OffsetX = 100, OffsetY = 100, Width = 500,
Height = 500), the sequence of hardware geometry set calls is NOT
OffsetX, OffsetY, Width, Height with no companion pre-writes. -/
theorem claim2_counterexample :
    (newParameters hwMinZero hwMaxBig false scnSt).st.trace.filter isGeomSet ≠
      [Evt.hwSet PName.OffsetX 100, Evt.hwSet PName.OffsetY 100,
       Evt.hwSet PName.Width 500, Evt.hwSet PName.Height 500] := by decide

/-- C2 amended: in that scenario the reconfiguration succeeds, the changed
list (store iteration order) is Height, OffsetX, OffsetY, Width, and the
geometry set calls are Height 500, then Width 500 (companion pre-write for
the increasing OffsetX), OffsetX 100, then Height 500 (companion pre-write
for the increasing OffsetY), OffsetY 100, then Width 500. -/
theorem claim2_amended :
    (newParameters hwMinZero hwMaxBig false scnSt).err = none ∧
    toChange scnPars scnSnap false =
      [PName.Height, PName.OffsetX, PName.OffsetY, PName.Width] ∧
    (newParameters hwMinZero hwMaxBig false scnSt).st.trace.filter isGeomSet =
      [Evt.hwSet PName.Height 500, Evt.hwSet PName.Width 500,
       Evt.hwSet PName.OffsetX 100, Evt.hwSet PName.Height 500,
       Evt.hwSet PName.OffsetY 100, Evt.hwSet PName.Width 500] := by decide

/-- C3 counterexample: in the BlackLevel scenario (initializing = false,
changed list = [Gain], hardware BlackLevel = 7, store and snapshot
BlackLevel = 1), the run succeeds and the republish loop leaves the store's
BlackLevel at the snapshot's value 1, which differs from the hardware's
current value 7 — so the store value written is not the hardware's current
value. -/
theorem claim3_counterexample :
    (newParameters hwMinZero hwMaxBig false bkSt).err = none ∧
    toChange bkSt.pars bkSt.snap false = [PName.Gain] ∧
    (newParameters hwMinZero hwMaxBig false bkSt).st.cam PName.BlackLevel = 7 ∧
    getv (newParameters hwMinZero hwMaxBig false bkSt).st.pars
      PName.BlackLevel = 1 ∧
    ¬ getv (newParameters hwMinZero hwMaxBig false bkSt).st.pars
        PName.BlackLevel =
      (newParameters hwMinZero hwMaxBig false bkSt).st.cam PName.BlackLevel := by
  decide

/-- C3 amended: in the republish phase of a successful reconfiguration with
a non-empty changed set, for every tracked name that is not exempted
(exemption: initializing and the name among the five), the store's entry
becomes: minimum and maximum the freshly re-fetched hardware bounds (at the
camera state current during republishing) and value the requested
snapshot's value for that name (not the hardware's current value). -/
theorem claim3_amended (hwMin hwMax : Camera → PName → Val)
    (initialization : Bool) (s : St) (n : PName) (hmem : n ∈ pgreyProps)
    (hno : ¬(initialization = true ∧ n ∈ exemptFive))
    (htc : ¬ toChange s.pars s.snap initialization = [])
    (hok : (newParameters hwMin hwMax initialization s).err = none) :
    (newParameters hwMin hwMax initialization s).st.pars n =
      ⟨getv s.snap n, hwMin (preRepublishSt initialization s).cam n,
       hwMax (preRepublishSt initialization s).cam n⟩ := by
  have h1 := run_translate_ok hok
  rw [run_ne_eq hwMin hwMax initialization s h1 htc] at hok ⊢
  have e6 : (republishPhase hwMin hwMax initialization
      (preRepublishSt initialization s)).err = none := err_none_left hok
  rw [andThen_none _ e6] at hok ⊢
  have e7 : (exposurePhase hwMax (republishPhase hwMin hwMax initialization
      (preRepublishSt initialization s)).st).err = none := err_none_left hok
  rw [andThen_none _ e7] at hok ⊢
  have hne1 : n ≠ PName.exposure_time := by fin_cases hmem <;> decide
  have hne2 : n ≠ PName.fps := by fin_cases hmem <;> decide
  have hfold : (republishPhase hwMin hwMax initialization
      (preRepublishSt initialization s)).st.pars n =
      ⟨getv (preRepublishSt initialization s).snap n,
       hwMin (preRepublishSt initialization s).cam n,
       hwMax (preRepublishSt initialization s).cam n⟩ :=
    republishFold_set hwMin hwMax hno pgreyProps (by decide) hmem
      (preRepublishSt initialization s) e6
  have hsnapn : getv (preRepublishSt initialization s).snap n =
      getv s.snap n := by
    unfold getv
    rw [preRepublish_snap initialization s,
      translate_snap_outside (tracked_not_derived n hmem)]
  have hexpo := expo_pars_ne hwMax hne1 hne2
    (republishPhase hwMin hwMax initialization
      (preRepublishSt initialization s)).st
  split
  · show (exposurePhase hwMax _).st.pars n = _
    rw [hexpo, hfold, hsnapn]
  · show (exposurePhase hwMax _).st.pars n = _
    rw [hexpo, hfold, hsnapn]

/-- Witness for C3 amended: the Gain entry after the BlackLevel-scenario
run is value 20 (snapshot), minimum 0 and maximum 4096 (hardware bounds). -/
theorem claim3_amended_witness :
    PName.Gain ∈ pgreyProps ∧
    ¬((false : Bool) = true ∧ PName.Gain ∈ exemptFive) ∧
    ¬ toChange bkSt.pars bkSt.snap false = [] ∧
    (newParameters hwMinZero hwMaxBig false bkSt).err = none ∧
    (newParameters hwMinZero hwMaxBig false bkSt).st.pars PName.Gain =
      ⟨getv bkSt.snap PName.Gain,
       hwMinZero (preRepublishSt false bkSt).cam PName.Gain,
       hwMaxBig (preRepublishSt false bkSt).cam PName.Gain⟩ :=
  ⟨by decide, by decide, by decide, by decide,
   claim3_amended hwMinZero hwMaxBig false bkSt PName.Gain (by decide)
     (by decide) (by decide) (by decide)⟩

theorem bracket_no_start_emit {b : Bool} {w : List Evt}
    (hall : ∀ e ∈ w, ∃ m v, e = Evt.hwSet m v) :
    Evt.start ∉ (if b then [Evt.stop] else []) ++ w ∧
    Evt.emit ∉ (if b then [Evt.stop] else []) ++ w ∧
    (Evt.stop ∈ (if b then [Evt.stop] else []) ++ w → b = true) := by
  refine ⟨?_, ?_, ?_⟩
  · intro h
    rcases List.mem_append.1 h with h | h
    · split at h
      · exact absurd (List.mem_singleton.1 h) (by decide)
      · cases h
    · exact not_start_mem hall h
  · intro h
    rcases List.mem_append.1 h with h | h
    · split at h
      · exact absurd (List.mem_singleton.1 h) (by decide)
      · cases h
    · exact not_emit_mem hall h
  · intro h
    by_contra hb
    rw [if_neg hb] at h
    rcases List.mem_append.1 h with h | h
    · cases h
    · exact not_stop_mem hall h

end PointGrey

namespace PointGrey

/-- C7: for a successful reconfiguration, the running flag at exit equals
the one at entry; with an empty changed set the event trace is empty (no
stop, no start); with a non-empty changed set the trace is exactly an
optional leading stop (present iff the device was running), then only
hardware property writes (the geometry writes and the exposure resync),
then an optional start (iff running), then the notification — so the stop
precedes every hardware write and the start follows the whole republish
including the exposure/frame-rate resync. -/
theorem claim7_bracketing (hwMin hwMax : Camera → PName → Val)
    (initialization : Bool) (s : St) (hs : s.trace = [])
    (hok : (newParameters hwMin hwMax initialization s).err = none) :
    (newParameters hwMin hwMax initialization s).st.running = s.running ∧
    (toChange s.pars s.snap initialization = [] →
      (newParameters hwMin hwMax initialization s).st.trace = []) ∧
    (¬ toChange s.pars s.snap initialization = [] →
      ∃ w, (∀ e ∈ w, ∃ m v, e = Evt.hwSet m v) ∧
        (newParameters hwMin hwMax initialization s).st.trace =
          (if s.running then [Evt.stop] else []) ++ w ++
          (if s.running then [Evt.start] else []) ++ [Evt.emit]) := by
  have h1 := run_translate_ok hok
  by_cases htc : toChange s.pars s.snap initialization = []
  · rw [run_empty_eq hwMin hwMax initialization s h1 htc]
    refine ⟨?_, ?_, ?_⟩
    · exact (translate_frame s).2.2.2.1
    · intro _
      show (translateAOI s).st.trace = []
      rw [(translate_frame s).2.2.1, hs]
    · intro h
      exact absurd htc h
  · rw [run_ne_eq hwMin hwMax initialization s h1 htc] at hok ⊢
    have e6 : (republishPhase hwMin hwMax initialization
        (preRepublishSt initialization s)).err = none := err_none_left hok
    rw [andThen_none _ e6] at hok ⊢
    have e7 : (exposurePhase hwMax (republishPhase hwMin hwMax initialization
        (preRepublishSt initialization s)).st).err = none := err_none_left hok
    rw [andThen_none _ e7] at hok ⊢
    obtain ⟨w0, hall0, hw0⟩ := preRepublish_trace initialization s hs
    have hfr6 := republishPhase_frame hwMin hwMax initialization
      (preRepublishSt initialization s)
    refine ⟨?_, ?_, ?_⟩
    · split
      · rename_i hr
        exact hr.symm
      · rename_i hr
        show (exposurePhase hwMax _).st.running = s.running
        rw [(expo_frame hwMax _).2.1, hfr6.2.2.2.1, preRepublish_running,
          if_neg hr]
    · intro h
      exact absurd h htc
    · intro _
      refine ⟨w0 ++ [Evt.hwSet PName.ExposureTime
        (hwMax (republishPhase hwMin hwMax initialization
          (preRepublishSt initialization s)).st.cam PName.ExposureTime)],
        ?_, ?_⟩
      · intro e he
        rcases List.mem_append.1 he with h | h
        · exact hall0 e h
        · exact ⟨_, _, List.mem_singleton.1 h⟩
      · split
        · rename_i hr
          show ((exposurePhase hwMax _).st.trace ++ [Evt.start]) ++ [Evt.emit]
            = _
          rw [expo_trace, hfr6.2.2.1, hw0, if_pos hr]
          simp [List.append_assoc]
        · rename_i hr
          show (exposurePhase hwMax _).st.trace ++ [Evt.emit] = _
          rw [expo_trace, hfr6.2.2.1, hw0, if_neg hr]
          simp [List.append_assoc]

/-- C8: after the republish loop of a successful reconfiguration with a
non-empty changed set (whether or not initializing), the hardware
ExposureTime ends at its freshly re-fetched maximum (taken at the camera
state current during republishing), the store's exposure_time is 1/1000000
times that read-back value (microseconds to seconds), and the store's fps
is the hardware AcquisitionFrameRate value read back. -/
theorem claim8_exposure_resync (hwMin hwMax : Camera → PName → Val)
    (initialization : Bool) (s : St)
    (htc : ¬ toChange s.pars s.snap initialization = [])
    (hok : (newParameters hwMin hwMax initialization s).err = none) :
    (newParameters hwMin hwMax initialization s).st.cam PName.ExposureTime =
      hwMax (preRepublishSt initialization s).cam PName.ExposureTime ∧
    getv (newParameters hwMin hwMax initialization s).st.pars
        PName.exposure_time =
      (⟨1, 1000000⟩ : Val) *
        hwMax (preRepublishSt initialization s).cam PName.ExposureTime ∧
    getv (newParameters hwMin hwMax initialization s).st.pars PName.fps =
      (preRepublishSt initialization s).cam PName.AcquisitionFrameRate := by
  have h1 := run_translate_ok hok
  rw [run_ne_eq hwMin hwMax initialization s h1 htc] at hok ⊢
  have e6 : (republishPhase hwMin hwMax initialization
      (preRepublishSt initialization s)).err = none := err_none_left hok
  rw [andThen_none _ e6] at hok ⊢
  have e7 : (exposurePhase hwMax (republishPhase hwMin hwMax initialization
      (preRepublishSt initialization s)).st).err = none := err_none_left hok
  rw [andThen_none _ e7] at hok ⊢
  have hcam6 : (republishPhase hwMin hwMax initialization
      (preRepublishSt initialization s)).st.cam =
      (preRepublishSt initialization s).cam :=
    (republishFold_frame hwMin hwMax initialization pgreyProps
      (preRepublishSt initialization s)).2.1
  have hv := expo_ok_vals e7
  refine ⟨?_, ?_, ?_⟩
  · split
    · show (exposurePhase hwMax _).st.cam PName.ExposureTime = _
      rw [expo_cam, setCam_same, hcam6]
    · show (exposurePhase hwMax _).st.cam PName.ExposureTime = _
      rw [expo_cam, setCam_same, hcam6]
  · split
    · show getv (exposurePhase hwMax _).st.pars PName.exposure_time = _
      rw [hv.1, hcam6]
    · show getv (exposurePhase hwMax _).st.pars PName.exposure_time = _
      rw [hv.1, hcam6]
  · split
    · show getv (exposurePhase hwMax _).st.pars PName.fps = _
      rw [hv.2, hcam6]
    · show getv (exposurePhase hwMax _).st.pars PName.fps = _
      rw [hv.2, hcam6]

/-- C9: if a reconfiguration fails (its result carries an error) after the
stop was issued (a stop event is in the trace), then no start and no
notification were ever issued, the device ends not running, and the
camera's final state is exactly the replay of the trace's already-issued
hardware writes on the entry camera state (no rollback). -/
theorem claim9_error_propagation (hwMin hwMax : Camera → PName → Val)
    (initialization : Bool) (s : St) {e : Err} (hs : s.trace = [])
    (herr : (newParameters hwMin hwMax initialization s).err = some e)
    (hstop : Evt.stop ∈ (newParameters hwMin hwMax initialization s).st.trace) :
    Evt.start ∉ (newParameters hwMin hwMax initialization s).st.trace ∧
    Evt.emit ∉ (newParameters hwMin hwMax initialization s).st.trace ∧
    (newParameters hwMin hwMax initialization s).st.running = false ∧
    (newParameters hwMin hwMax initialization s).st.cam =
      applyTrace s.cam (newParameters hwMin hwMax initialization s).st.trace := by
  have hTC : TraceCam s.cam (newParameters hwMin hwMax initialization s).st :=
    traceCam_newParameters hwMin hwMax initialization
      (by unfold TraceCam; rw [hs]; rfl)
  have hABC : Evt.start ∉ (newParameters hwMin hwMax initialization s).st.trace ∧
      Evt.emit ∉ (newParameters hwMin hwMax initialization s).st.trace ∧
      (newParameters hwMin hwMax initialization s).st.running = false := by
    cases h1 : (translateAOI s).err with
    | some e0 =>
      exfalso
      rw [run_err_eq hwMin hwMax initialization s h1,
        (translate_frame s).2.2.1, hs] at hstop
      cases hstop
    | none =>
      by_cases htc : toChange s.pars s.snap initialization = []
      · exfalso
        rw [run_empty_eq hwMin hwMax initialization s h1 htc] at herr
        cases herr
      · rw [run_ne_eq hwMin hwMax initialization s h1 htc] at herr hstop ⊢
        obtain ⟨w0, hall0, hw0⟩ := preRepublish_trace initialization s hs
        have hfr6 := republishPhase_frame hwMin hwMax initialization
          (preRepublishSt initialization s)
        cases e6 : (republishPhase hwMin hwMax initialization
            (preRepublishSt initialization s)).err with
        | some e1 =>
          rw [andThen_some _ e6] at herr hstop ⊢
          rw [hfr6.2.2.1, hw0] at hstop ⊢
          obtain ⟨hn1, hn2, hn3⟩ := bracket_no_start_emit hall0
          have hr : s.running = true := hn3 hstop
          refine ⟨hn1, hn2, ?_⟩
          rw [hfr6.2.2.2.1, preRepublish_running, if_pos hr]
        | none =>
          rw [andThen_none _ e6] at herr hstop ⊢
          cases e7 : (exposurePhase hwMax (republishPhase hwMin hwMax
              initialization (preRepublishSt initialization s)).st).err with
          | some e2 =>
            rw [andThen_some _ e7] at herr hstop ⊢
            rw [expo_trace, hfr6.2.2.1, hw0, List.append_assoc] at hstop ⊢
            have hall1 : ∀ ev ∈ w0 ++ [Evt.hwSet PName.ExposureTime
                (hwMax (republishPhase hwMin hwMax initialization
                  (preRepublishSt initialization s)).st.cam PName.ExposureTime)],
                ∃ m v, ev = Evt.hwSet m v := by
              intro ev hev
              rcases List.mem_append.1 hev with h | h
              · exact hall0 ev h
              · exact ⟨_, _, List.mem_singleton.1 h⟩
            obtain ⟨hn1, hn2, hn3⟩ := bracket_no_start_emit hall1
            have hr : s.running = true := hn3 hstop
            refine ⟨hn1, hn2, ?_⟩
            rw [(expo_frame hwMax _).2.1, hfr6.2.2.2.1, preRepublish_running,
              if_pos hr]
          | none =>
            exfalso
            rw [andThen_none _ e7] at herr
            cases herr
  exact ⟨hABC.1, hABC.2.1, hABC.2.2, hTC⟩

end PointGrey

namespace PointGrey

/-- Witness for C4: at initialization over the concrete scenario, Height's
declared range in the store is unchanged. -/
theorem claim4_init_ranges_witness :
    PName.Height ∈ exemptFive ∧
    (((newParameters hwMinZero hwMaxBig true scnSt).st.pars
        PName.Height).minimum = (scnSt.pars PName.Height).minimum ∧
     ((newParameters hwMinZero hwMaxBig true scnSt).st.pars
        PName.Height).maximum = (scnSt.pars PName.Height).maximum) :=
  ⟨by decide,
   claim4_init_ranges hwMinZero hwMaxBig scnSt PName.Height (by decide)⟩

/-- Witness for C5: the concrete scenario run succeeds and its derived
fields satisfy the invariant. -/
theorem claim5_witness :
    (newParameters hwMinZero hwMaxBig false scnSt).err = none ∧
    (getv (newParameters hwMinZero hwMaxBig false scnSt).st.snap PName.x_end =
      getv scnSt.snap PName.OffsetX + getv scnSt.snap PName.Width - 1 ∧
    getv (newParameters hwMinZero hwMaxBig false scnSt).st.snap
        PName.x_pixels = getv scnSt.snap PName.Width ∧
    getv (newParameters hwMinZero hwMaxBig false scnSt).st.snap
        PName.x_start = getv scnSt.snap PName.OffsetX + 1 ∧
    getv (newParameters hwMinZero hwMaxBig false scnSt).st.snap PName.y_end =
      getv scnSt.snap PName.OffsetY + getv scnSt.snap PName.Height - 1 ∧
    getv (newParameters hwMinZero hwMaxBig false scnSt).st.snap
        PName.y_pixels = getv scnSt.snap PName.Height ∧
    getv (newParameters hwMinZero hwMaxBig false scnSt).st.snap
        PName.y_start = getv scnSt.snap PName.OffsetY + 1 ∧
    (newParameters hwMinZero hwMaxBig false scnSt).st.snap =
      (translateAOI scnSt).st.snap) :=
  ⟨by decide, claim5_derived_fields hwMinZero hwMaxBig false scnSt (by decide)⟩

/-- Witness for C6: a second submission of an identical snapshot has an
empty changed set and an empty event trace. -/
theorem claim6_witness :
    idSt.trace = [] ∧
    ((∀ n, n ∈ toChange idSt.pars idSt.snap false ↔
      n ∈ pgreyProps ∧
        (¬ Val.eqv (getv idSt.pars n) (getv idSt.snap n) ∨ (false : Bool) = true)) ∧
    (toChange idSt.pars idSt.snap false = [] →
      (newParameters hwMinZero hwMaxBig false idSt).st.trace = [])) :=
  ⟨rfl, claim6_changed_set hwMinZero hwMaxBig false idSt rfl⟩

/-- Witness for C7: the BlackLevel-scenario run (device running, Gain
changed) succeeds; the bracketing shape holds there. -/
theorem claim7_witness :
    bkSt.trace = [] ∧
    (newParameters hwMinZero hwMaxBig false bkSt).err = none ∧
    ((newParameters hwMinZero hwMaxBig false bkSt).st.running = bkSt.running ∧
    (toChange bkSt.pars bkSt.snap false = [] →
      (newParameters hwMinZero hwMaxBig false bkSt).st.trace = []) ∧
    (¬ toChange bkSt.pars bkSt.snap false = [] →
      ∃ w, (∀ e ∈ w, ∃ m v, e = Evt.hwSet m v) ∧
        (newParameters hwMinZero hwMaxBig false bkSt).st.trace =
          (if bkSt.running then [Evt.stop] else []) ++ w ++
          (if bkSt.running then [Evt.start] else []) ++ [Evt.emit])) :=
  ⟨rfl, by decide, claim7_bracketing hwMinZero hwMaxBig false bkSt rfl (by decide)⟩

/-- Witness for C8: in the BlackLevel-scenario run the exposure ends at the
re-fetched maximum 4096, exposure_time at 4096/1000000 seconds, fps at the
hardware frame rate 10. -/
theorem claim8_witness :
    ¬ toChange bkSt.pars bkSt.snap false = [] ∧
    (newParameters hwMinZero hwMaxBig false bkSt).err = none ∧
    ((newParameters hwMinZero hwMaxBig false bkSt).st.cam PName.ExposureTime =
      hwMaxBig (preRepublishSt false bkSt).cam PName.ExposureTime ∧
    getv (newParameters hwMinZero hwMaxBig false bkSt).st.pars
        PName.exposure_time =
      (⟨1, 1000000⟩ : Val) *
        hwMaxBig (preRepublishSt false bkSt).cam PName.ExposureTime ∧
    getv (newParameters hwMinZero hwMaxBig false bkSt).st.pars PName.fps =
      (preRepublishSt false bkSt).cam PName.AcquisitionFrameRate) :=
  ⟨by decide, by decide,
   claim8_exposure_resync hwMinZero hwMaxBig false bkSt (by decide) (by decide)⟩

/-- Witness for C9: with the hostile Gain minimum the BlackLevel-scenario
run fails inside the republish loop after the stop; no start, no
notification, device left stopped, camera exactly the replay of the issued
writes. -/
theorem claim9_witness :
    bkSt.trace = [] ∧
    (newParameters hwMinBad hwMaxBig false bkSt).err =
      some (Err.range PName.Gain) ∧
    Evt.stop ∈ (newParameters hwMinBad hwMaxBig false bkSt).st.trace ∧
    (Evt.start ∉ (newParameters hwMinBad hwMaxBig false bkSt).st.trace ∧
    Evt.emit ∉ (newParameters hwMinBad hwMaxBig false bkSt).st.trace ∧
    (newParameters hwMinBad hwMaxBig false bkSt).st.running = false ∧
    (newParameters hwMinBad hwMaxBig false bkSt).st.cam =
      applyTrace bkSt.cam (newParameters hwMinBad hwMaxBig false bkSt).st.trace) :=
  ⟨rfl, by decide, by decide,
   claim9_error_propagation hwMinBad hwMaxBig false bkSt rfl
     (show (newParameters hwMinBad hwMaxBig false bkSt).err =
       some (Err.range PName.Gain) by decide)
     (by decide)⟩

/-- Witness for C10: the idempotent no-op run (empty changed set) still
rewrites the snapshot's derived entries and sets camera_working. -/
theorem claim10_witness :
    (newParameters hwMinZero hwMaxBig false idSt).err = none ∧
    (getv (newParameters hwMinZero hwMaxBig false idSt).st.snap PName.x_end =
      getv idSt.snap PName.OffsetX + getv idSt.snap PName.Width - 1 ∧
    getv (newParameters hwMinZero hwMaxBig false idSt).st.snap
        PName.x_pixels = getv idSt.snap PName.Width ∧
    getv (newParameters hwMinZero hwMaxBig false idSt).st.snap
        PName.x_start = getv idSt.snap PName.OffsetX + 1 ∧
    getv (newParameters hwMinZero hwMaxBig false idSt).st.snap PName.y_end =
      getv idSt.snap PName.OffsetY + getv idSt.snap PName.Height - 1 ∧
    getv (newParameters hwMinZero hwMaxBig false idSt).st.snap
        PName.y_pixels = getv idSt.snap PName.Height ∧
    getv (newParameters hwMinZero hwMaxBig false idSt).st.snap
        PName.y_start = getv idSt.snap PName.OffsetY + 1 ∧
    (newParameters hwMinZero hwMaxBig false idSt).st.camera_working = true) :=
  ⟨by decide, claim10_noop_mutation hwMinZero hwMaxBig false idSt (by decide)⟩

end PointGrey
